import Mathlib

/-!
Shallow embedding of the repository source file
`src/predictions/prediction.py`: the classes `Prediction`,
`NumericPrediction` and `BinaryPrediction` and their metric computations,
together with proofs of the specified properties.

Modelling conventions:
* numpy arrays (and lists converted to them at construction) are Lean lists;
* elementwise numpy operations on aligned arrays are `List.zipWith` and
  `List.map`;
* `bool_array.sum()` counts the `true` entries;
* floats are modelled as rationals; `np.mean` of an empty array, which is
  NaN in numpy, is modelled as `Option.none`;
* a Python exception raised by a metric accessor (for example the
  `IndexError` in `value_negative` when no qualifying element exists) is
  modelled as `Option.none`; a `ValueError` at construction is modelled as
  `Except.error` carrying the message string.
-/

namespace Predictions

/-- numpy `array == scalar`: elementwise comparison of an array with a scalar. -/
def npEqScalar {α : Type} [DecidableEq α] (l : List α) (v : α) : List Bool :=
  l.map (fun x => x == v)

/-- numpy `array != scalar`: elementwise inequality with a scalar. -/
def npNeScalar {α : Type} [DecidableEq α] (l : List α) (v : α) : List Bool :=
  l.map (fun x => x != v)

/-- numpy `a == b` for two aligned arrays: elementwise equality. -/
def npEqArr {α : Type} [DecidableEq α] (a b : List α) : List Bool :=
  List.zipWith (fun x y => x == y) a b

/-- numpy `a & b` on boolean arrays. -/
def npAnd (a b : List Bool) : List Bool :=
  List.zipWith and a b

/-- numpy `a | b` on boolean arrays. -/
def npOr (a b : List Bool) : List Bool :=
  List.zipWith or a b

/-- numpy `bool_array.sum()`: the number of `True` entries. -/
def npSum (l : List Bool) : Nat :=
  l.count true

/-- numpy `a - b` on aligned numeric arrays: elementwise difference. -/
def npSub (a b : List ℚ) : List ℚ :=
  List.zipWith (fun x y => x - y) a b

/-- numpy `np.mean` of a boolean array: the fraction of `True` entries,
NaN (modelled as `none`) when the array is empty. -/
def npMeanBool (l : List Bool) : Option ℚ :=
  if l.length = 0 then none else some ((l.count true : ℚ) / (l.length : ℚ))

/-- The state stored by `Prediction.__init__` before/independently of
validation: the two sequences as given, `real_values` possibly absent
(`None` in Python). -/
structure RawPrediction (α : Type) where
  fitted_values : List α
  real_values : Option (List α)
deriving DecidableEq

/-- `Prediction._check_lengths_match`: returns without checking when
`real_values` is `None`; otherwise raises `ValueError` with a message naming
both lengths when they differ. -/
def checkLengthsMatch {α : Type} (fitted : List α) (real : Option (List α)) :
    Except String Unit :=
  match real with
  | none => Except.ok ()
  | some r =>
      let len_fit := fitted.length
      let len_real := r.length
      if len_fit ≠ len_real then
        Except.error ("Fitted values and real values must have the same length.\n"
          ++ "Fitted values has length: " ++ toString len_fit ++ ".\n"
          ++ "Real values has length: " ++ toString len_real ++ ".")
      else
        Except.ok ()

/-- `Prediction.__init__`: stores the two sequences and runs
`_check_lengths_match`; on failure the exception propagates and no object is
produced (`_lists_to_nparray` is the identity in this model since arrays are
already lists). -/
def mkPrediction {α : Type} (fitted : List α) (real : Option (List α)) :
    Except String (RawPrediction α) :=
  match checkLengthsMatch fitted real with
  | Except.error e => Except.error e
  | Except.ok _ => Except.ok ⟨fitted, real⟩

/-- A validated `Prediction`: both sequences present and of equal length, the
invariant `_check_lengths_match` establishes at construction. -/
structure Prediction (α : Type) where
  fitted_values : List α
  real_values : List α
  len_eq : fitted_values.length = real_values.length

/-- `Prediction.matches`: `self.real_values == self.fitted_values`, the
elementwise boolean comparison. -/
def Prediction.matches {α : Type} [DecidableEq α] (p : Prediction α) : List Bool :=
  npEqArr p.real_values p.fitted_values

/-- `Prediction.percentage_correctly_classified`:
`np.mean(self.real_values == self.fitted_values)`. -/
def Prediction.percentage_correctly_classified {α : Type} [DecidableEq α]
    (p : Prediction α) : Option ℚ :=
  npMeanBool (npEqArr p.real_values p.fitted_values)

/-- `pcc = percentage_correctly_classified`: the alias defined in the class
body resolves to the very same computation. -/
def Prediction.pcc {α : Type} [DecidableEq α] (p : Prediction α) : Option ℚ :=
  p.percentage_correctly_classified

/-- A validated `NumericPrediction`: the numeric specialization, elements
modelled as rationals. -/
structure NumericPrediction where
  fitted_values : List ℚ
  real_values : List ℚ
  len_eq : fitted_values.length = real_values.length

/-- The underlying `Prediction` (inheritance). -/
def NumericPrediction.toPrediction (p : NumericPrediction) : Prediction ℚ :=
  ⟨p.fitted_values, p.real_values, p.len_eq⟩

/-- `NumericPrediction.residuals(squared, absolute_value)`: the Python
defaults are `squared=False, absolute_value=False`. Computes
`real_values - fitted_values`, then returns the squares when `squared` is
set, else the absolute values when `absolute_value` is set, else the signed
residuals. -/
def NumericPrediction.residuals (p : NumericPrediction)
    (squared : Bool) (absolute_value : Bool) : List ℚ :=
  let residuals := npSub p.real_values p.fitted_values
  if squared then residuals.map (fun r => r ^ 2)
  else if absolute_value then residuals.map (fun r => |r|)
  else residuals

/-- `NumericPrediction.matches(tolerance)` (Python default `tolerance=0.0`):
`abs(self.real_values - self.fitted_values) <= tolerance`, elementwise. -/
def NumericPrediction.matches (p : NumericPrediction) (tolerance : ℚ) : List Bool :=
  (npSub p.real_values p.fitted_values).map (fun d => decide (|d| ≤ tolerance))

/-- `NumericPrediction.percentage_correctly_classified`: inherited unchanged
from `Prediction`. -/
def NumericPrediction.percentage_correctly_classified (p : NumericPrediction) :
    Option ℚ :=
  p.toPrediction.percentage_correctly_classified

/-- A validated `BinaryPrediction`: the two sequences plus the designated
positive value (Python default `value_positive=1`). -/
structure BinaryPrediction (α : Type) where
  fitted_values : List α
  real_values : List α
  value_positive : α
  len_eq : fitted_values.length = real_values.length

/-- `BinaryPrediction.value_negative`:
`self.real_values[self.real_values != self.value_positive][0]`, i.e. the
head of the filtered array; indexing an empty array raises `IndexError`,
modelled as `none`. -/
def BinaryPrediction.value_negative {α : Type} [DecidableEq α]
    (p : BinaryPrediction α) : Option α :=
  (p.real_values.filter (fun x => x != p.value_positive)).head?

/-- `BinaryPrediction.false_positive_rate`:
`(pred_pos & real_neg).sum() / real_neg.sum()` (rational division; numpy
division by zero yields NaN, here the junk value `0`). -/
def BinaryPrediction.false_positive_rate {α : Type} [DecidableEq α]
    (p : BinaryPrediction α) : ℚ :=
  let pred_pos := npEqScalar p.fitted_values p.value_positive
  let real_neg := npNeScalar p.real_values p.value_positive
  let false_positive := npAnd pred_pos real_neg
  (npSum false_positive : ℚ) / (npSum real_neg : ℚ)

/-- `BinaryPrediction.false_negative_rate`:
`(pred_neg & real_pos).sum() / real_pos.sum()`. -/
def BinaryPrediction.false_negative_rate {α : Type} [DecidableEq α]
    (p : BinaryPrediction α) : ℚ :=
  let pred_neg := npNeScalar p.fitted_values p.value_positive
  let real_pos := npEqScalar p.real_values p.value_positive
  let false_negative := npAnd pred_neg real_pos
  (npSum false_negative : ℚ) / (npSum real_pos : ℚ)

/-- `BinaryPrediction.sensitivity`:
`(pred_pos & real_pos).sum() / (pred_pos | real_pos).sum()`. -/
def BinaryPrediction.sensitivity {α : Type} [DecidableEq α]
    (p : BinaryPrediction α) : ℚ :=
  let pred_pos := npEqScalar p.fitted_values p.value_positive
  let real_pos := npEqScalar p.real_values p.value_positive
  let caught_positive := npAnd pred_pos real_pos
  (npSum caught_positive : ℚ) / (npSum (npOr pred_pos real_pos) : ℚ)

/-- `BinaryPrediction.specificity`:
`(pred_neg & real_neg).sum() / (pred_neg | real_neg).sum()`. -/
def BinaryPrediction.specificity {α : Type} [DecidableEq α]
    (p : BinaryPrediction α) : ℚ :=
  let pred_neg := npNeScalar p.fitted_values p.value_positive
  let real_neg := npNeScalar p.real_values p.value_positive
  let caught_negative := npAnd pred_neg real_neg
  (npSum caught_negative : ℚ) / (npSum (npOr pred_neg real_neg) : ℚ)

/-- `BinaryPrediction.confusion_matrix(as_dataframe=False)`: the 2x2 ndarray
`[[(pred_neg & real_neg).sum(), (pred_pos & real_neg).sum()],
  [(pred_neg & real_pos).sum(), (pred_pos & real_pos).sum()]]`. -/
def BinaryPrediction.confusion_matrix {α : Type} [DecidableEq α]
    (p : BinaryPrediction α) : List (List Nat) :=
  let pred_pos := npEqScalar p.fitted_values p.value_positive
  let pred_neg := npNeScalar p.fitted_values p.value_positive
  let real_pos := npEqScalar p.real_values p.value_positive
  let real_neg := npNeScalar p.real_values p.value_positive
  [[npSum (npAnd pred_neg real_neg), npSum (npAnd pred_pos real_neg)],
   [npSum (npAnd pred_neg real_pos), npSum (npAnd pred_pos real_pos)]]

/-- A labelled 2x2 tabular structure (a pandas DataFrame with row and column
labels). -/
structure LabeledMatrix where
  row_labels : List String
  col_labels : List String
  values : List (List Nat)

/-- Modelled from the spec: the `as_dataframe=True` branch of
`BinaryPrediction.confusion_matrix` is absent from `src` (the source file
ends right after the ndarray return), and the spec states that the same four
counts are exposed as a labelled tabular structure with rows and columns
labelled Negative/Positive. -/
def BinaryPrediction.confusion_matrix_df {α : Type} [DecidableEq α]
    (p : BinaryPrediction α) : LabeledMatrix :=
  { row_labels := ["Negative", "Positive"]
    col_labels := ["Negative", "Positive"]
    values := p.confusion_matrix }

/-- Count of aligned `(fitted, real)` index pairs satisfying a boolean
predicate: the index-level reading of a numpy boolean-mask `.sum()` used by
the spec formulas. -/
def pairCount {α : Type} (p : BinaryPrediction α) (q : α → α → Bool) : Nat :=
  (p.fitted_values.zip p.real_values).countP (fun fr => q fr.1 fr.2)

/-! ### Helper lemmas about the numpy model -/

/-- An elementwise binary operation on two mapped arrays is an index-level
count over the zipped pairs. -/
theorem npSum_zipWith_map {α : Type} (op : Bool → Bool → Bool) (pf pr : α → Bool)
    (f r : List α) :
    npSum (List.zipWith op (f.map pf) (r.map pr)) =
      (f.zip r).countP (fun x => op (pf x.1) (pr x.2)) := by
  induction f generalizing r with
  | nil => simp [npSum]
  | cons a f ih =>
    cases r with
    | nil => simp [npSum]
    | cons b r =>
      simp only [List.map_cons, List.zipWith_cons_cons, List.zip_cons_cons,
        List.countP_cons, npSum, List.count_cons, ← ih r]
      cases op (pf a) (pr b) <;> simp [npSum]

/-- `zipWith` as a map over the zipped list. -/
theorem zipWith_eq_map_zip {α β γ : Type} (g : α → β → γ) (a : List α) (b : List β) :
    List.zipWith g a b = (a.zip b).map (fun x => g x.1 x.2) := by
  induction a generalizing b with
  | nil => simp
  | cons x a ih =>
    cases b with
    | nil => simp
    | cons y b => simp [ih]

/-- Four complementary boolean masks partition the index set. -/
theorem countP_four_partition {γ : Type} (l : List γ) (a b : γ → Bool) :
    l.countP (fun x => !a x && !b x) + l.countP (fun x => a x && !b x)
      + l.countP (fun x => !a x && b x) + l.countP (fun x => a x && b x)
      = l.length := by
  induction l with
  | nil => simp
  | cons x l ih =>
    simp only [List.countP_cons, List.length_cons]
    cases ha : a x <;> cases hb : b x <;> simp <;> omega

/-- The head of a filtered list is the first element satisfying the
predicate: the `some` case, via an append decomposition. -/
theorem head?_filter_eq_some_iff {α : Type} (q : α → Bool) (l : List α) (x : α) :
    (l.filter q).head? = some x ↔
      ∃ pre suf, l = pre ++ x :: suf ∧ (∀ y ∈ pre, q y = false) ∧ q x = true := by
  induction l with
  | nil =>
    simp only [List.filter_nil, List.head?_nil]
    constructor
    · intro h; cases h
    · rintro ⟨pre, suf, h, -, -⟩
      exact absurd h (by simp)
  | cons a t ih =>
    cases h : q a with
    | true =>
      simp only [List.filter_cons, h, if_true, List.head?_cons, Option.some.injEq]
      constructor
      · rintro rfl
        exact ⟨[], t, rfl, by simp, h⟩
      · rintro ⟨pre, suf, hdec, hpre, hx⟩
        cases pre with
        | nil =>
          simp only [List.nil_append, List.cons.injEq] at hdec
          exact hdec.1
        | cons c pre =>
          simp only [List.cons_append, List.cons.injEq] at hdec
          have hfalse : q a = false := hdec.1 ▸ hpre c (by simp)
          rw [h] at hfalse
          cases hfalse
    | false =>
      simp only [List.filter_cons, h, Bool.false_eq_true, if_false, ih]
      constructor
      · rintro ⟨pre, suf, hdec, hpre, hx⟩
        refine ⟨a :: pre, suf, by simp [hdec], ?_, hx⟩
        intro y hy
        rcases List.mem_cons.mp hy with rfl | hy
        · exact h
        · exact hpre y hy
      · rintro ⟨pre, suf, hdec, hpre, hx⟩
        cases pre with
        | nil =>
          simp only [List.nil_append, List.cons.injEq] at hdec
          rw [← hdec.1] at hx
          rw [hx] at h
          cases h
        | cons c pre =>
          simp only [List.cons_append, List.cons.injEq] at hdec
          exact ⟨pre, suf, hdec.2, fun y hy => hpre y (by simp [hy]), hx⟩

/-- The head of a filtered list is `none` exactly when no element satisfies
the predicate. -/
theorem head?_filter_eq_none_iff {α : Type} (q : α → Bool) (l : List α) :
    (l.filter q).head? = none ↔ ∀ y ∈ l, q y = false := by
  simp [List.head?_eq_none_iff, List.filter_eq_nil_iff]

/-- `npMeanBool` is NaN exactly on the empty array. -/
theorem npMeanBool_eq_none_iff (l : List Bool) : npMeanBool l = none ↔ l.length = 0 := by
  unfold npMeanBool
  split <;> simp_all

/-- A defined `npMeanBool` value lies in the unit interval. -/
theorem npMeanBool_mem_unit (l : List Bool) (q : ℚ) :
    npMeanBool l = some q → 0 ≤ q ∧ q ≤ 1 := by
  unfold npMeanBool
  split
  · intro h; cases h
  · intro h
    rename_i hne
    have hq : q = (l.count true : ℚ) / (l.length : ℚ) := (Option.some.inj h).symm
    have hlen : (0 : ℚ) < (l.length : ℚ) := by
      exact_mod_cast Nat.pos_of_ne_zero hne
    constructor
    · rw [hq]; positivity
    · rw [hq, div_le_one hlen]
      exact_mod_cast List.count_le_length true l

/-- Over the rationals, a tolerance of `0` degenerates to exact equality:
`matches 0` is the elementwise equality mask. -/
theorem matches_zero_eq (p : NumericPrediction) :
    p.matches 0 = npEqArr p.real_values p.fitted_values := by
  unfold NumericPrediction.matches npEqArr npSub
  rw [zipWith_eq_map_zip, zipWith_eq_map_zip, List.map_map]
  have hfun : ((fun d : ℚ => decide (|d| ≤ 0)) ∘ fun x : ℚ × ℚ => x.1 - x.2)
      = fun x : ℚ × ℚ => x.1 == x.2 := by
    funext x
    show decide (|x.1 - x.2| ≤ 0) = decide (x.1 = x.2)
    simp [decide_eq_decide, abs_nonpos_iff, sub_eq_zero]
  rw [hfun]

/-! ### Claim theorems -/

/-- C3: constructing a `Prediction` with `fitted_values` of length `a` and
`real_values` of length `b` with `a ≠ b` fails with a length-mismatch error
whose message contains both lengths (the error carries only the message, so
no usable partial object is produced); construction succeeds when the
lengths are equal. -/
theorem mkPrediction_length_mismatch {α : Type} (fitted real : List α) :
    (fitted.length ≠ real.length →
      ∃ msg : String, mkPrediction fitted (some real) = Except.error msg ∧
        ∃ s1 s2 s3 : String,
          msg = s1 ++ toString fitted.length ++ s2 ++ toString real.length ++ s3) ∧
    (fitted.length = real.length →
      mkPrediction fitted (some real) = Except.ok ⟨fitted, some real⟩) := by
  constructor
  · intro h
    refine ⟨"Fitted values and real values must have the same length.\n"
        ++ "Fitted values has length: " ++ toString fitted.length ++ ".\n"
        ++ "Real values has length: " ++ toString real.length ++ ".",
      ?_,
      "Fitted values and real values must have the same length.\n"
        ++ "Fitted values has length: ",
      ".\n" ++ "Real values has length: ", ".", ?_⟩
    · simp [mkPrediction, checkLengthsMatch, h]
    · simp [String.append_assoc]
  · intro h
    simp [mkPrediction, checkLengthsMatch, h]

/-- C3 witness: lengths 2 and 3 fail with a message naming both lengths;
equal lengths 2 and 2 succeed. -/
theorem mkPrediction_length_mismatch_witness :
    (∃ msg : String, mkPrediction ([1, 2] : List ℤ) (some [3, 4, 5]) = Except.error msg ∧
      ∃ s1 s2 s3 : String,
        msg = s1 ++ toString (2 : Nat) ++ s2 ++ toString (3 : Nat) ++ s3) ∧
    mkPrediction ([1, 2] : List ℤ) (some [4, 5]) = Except.ok ⟨[1, 2], some [4, 5]⟩ :=
  ⟨(mkPrediction_length_mismatch ([1, 2] : List ℤ) [3, 4, 5]).1 (by decide),
   (mkPrediction_length_mismatch ([1, 2] : List ℤ) [4, 5]).2 rfl⟩

/-- C8: when `real_values` is absent (`None`), construction performs no
length check and succeeds for any `fitted_values`, storing the absent
ground truth as given. -/
theorem mkPrediction_no_real_values {α : Type} (fitted : List α) :
    mkPrediction fitted none = Except.ok ⟨fitted, none⟩ := rfl

/-- C4: `residuals` returns exactly one of three forms: each elementwise
residual real[i] - fitted[i] squared when `squared` is true (priority over
`absolute_value`), else the absolute residuals when `absolute_value` is
true, else the signed residuals; checked also on the spec example
fitted=[5,5,5], real=[3,4,6]. -/
theorem residuals_three_forms (p : NumericPrediction) (squared absolute_value : Bool) :
    (p.residuals squared absolute_value =
      if squared then
        (p.real_values.zip p.fitted_values).map (fun x => (x.1 - x.2) ^ 2)
      else if absolute_value then
        (p.real_values.zip p.fitted_values).map (fun x => |x.1 - x.2|)
      else
        (p.real_values.zip p.fitted_values).map (fun x => x.1 - x.2)) ∧
    NumericPrediction.residuals ⟨[5, 5, 5], [3, 4, 6], rfl⟩ false false = [-2, -1, 1] ∧
    NumericPrediction.residuals ⟨[5, 5, 5], [3, 4, 6], rfl⟩ true false = [4, 1, 1] ∧
    NumericPrediction.residuals ⟨[5, 5, 5], [3, 4, 6], rfl⟩ false true = [2, 1, 1] := by
  refine ⟨?_, by norm_num [NumericPrediction.residuals, npSub],
    by norm_num [NumericPrediction.residuals, npSub],
    by norm_num [NumericPrediction.residuals, npSub, abs_le]⟩
  cases squared <;> cases absolute_value <;>
    simp [NumericPrediction.residuals, npSub, zipWith_eq_map_zip, List.map_map,
      Function.comp]

/-- C5: `matches(tolerance)` is the elementwise boolean sequence of length N
that is true at index i exactly when the absolute difference of real and
fitted is at most the tolerance; checked also on the spec example
fitted=[1.0,2.0], real=[1.05,2.5], tolerance=0.1. -/
theorem matches_tolerance_spec (p : NumericPrediction) (tolerance : ℚ) :
    (p.matches tolerance =
      (p.real_values.zip p.fitted_values).map (fun x => decide (|x.1 - x.2| ≤ tolerance))) ∧
    (p.matches tolerance).length = p.fitted_values.length ∧
    NumericPrediction.matches ⟨[1, 2], [21/20, 5/2], rfl⟩ (1/10) = [true, false] := by
  refine ⟨?_, ?_, by norm_num [NumericPrediction.matches, npSub, abs_le]⟩
  · simp [NumericPrediction.matches, npSub, zipWith_eq_map_zip, List.map_map,
      Function.comp]
  · simp [NumericPrediction.matches, npSub, List.length_zipWith, p.len_eq]

/-- C6: `matches()` is the elementwise equality sequence of length N;
`percentage_correctly_classified` is its mean, the alias `pcc` resolves to
the same computation, the value lies in [0,1] and is NaN (`none`) only when
N = 0; checked also on the spec example fitted=[1,2,3], real=[1,0,3]. -/
theorem pcc_matches_mean {α : Type} [DecidableEq α] (p : Prediction α) :
    (p.matches = (p.real_values.zip p.fitted_values).map (fun x => x.1 == x.2)) ∧
    p.matches.length = p.fitted_values.length ∧
    p.percentage_correctly_classified = npMeanBool p.matches ∧
    p.pcc = p.percentage_correctly_classified ∧
    (p.percentage_correctly_classified = none ↔ p.fitted_values.length = 0) ∧
    (∀ q : ℚ, p.percentage_correctly_classified = some q → 0 ≤ q ∧ q ≤ 1) ∧
    Prediction.matches ⟨([1, 2, 3] : List ℤ), [1, 0, 3], rfl⟩ = [true, false, true] ∧
    Prediction.percentage_correctly_classified ⟨([1, 2, 3] : List ℤ), [1, 0, 3], rfl⟩
      = some (2/3) := by
  have hlen : (npEqArr p.real_values p.fitted_values).length = p.fitted_values.length := by
    simp [npEqArr, List.length_zipWith, p.len_eq]
  refine ⟨?_, ?_, rfl, rfl, ?_, fun q => npMeanBool_mem_unit _ q, ?_, ?_⟩
  · simp [Prediction.matches, npEqArr, zipWith_eq_map_zip]
  · simpa [Prediction.matches] using hlen
  · rw [Prediction.percentage_correctly_classified, npMeanBool_eq_none_iff, hlen]
  · decide
  · norm_num [Prediction.percentage_correctly_classified, npMeanBool, npEqArr]

/-- C6 witness: on the spec example the value 2/3 is a defined mean lying in
the unit interval. -/
theorem pcc_matches_mean_witness : (0 : ℚ) ≤ 2/3 ∧ (2/3 : ℚ) ≤ 1 :=
  (pcc_matches_mean ⟨([1, 2, 3] : List ℤ), [1, 0, 3], rfl⟩).2.2.2.2.2.1 (2/3)
    (pcc_matches_mean ⟨([1, 2, 3] : List ℤ), [1, 0, 3], rfl⟩).2.2.2.2.2.2.2

/-- C9: the inherited `percentage_correctly_classified` of a
`NumericPrediction` is the exact-equality rate (mean of the elementwise
equality mask), unaffected by the tolerance-based `matches` override; it
equals the mean of `matches 0`, while for a positive tolerance the mean of
`matches tolerance` can strictly exceed it. -/
theorem pcc_unaffected_by_tolerance :
    (∀ p : NumericPrediction, p.percentage_correctly_classified
      = npMeanBool (npEqArr p.real_values p.fitted_values)) ∧
    (∀ p : NumericPrediction, p.percentage_correctly_classified
      = npMeanBool (p.matches 0)) ∧
    (∃ (p : NumericPrediction) (tolerance a b : ℚ), 0 < tolerance ∧
      p.percentage_correctly_classified = some a ∧
      npMeanBool (p.matches tolerance) = some b ∧ a < b) := by
  refine ⟨?_, fun p => by rw [matches_zero_eq]; rfl, ?_⟩
  · intro p
    rfl
  refine ⟨⟨[1], [21/20], rfl⟩, 1/10, 0, 1, by norm_num, ?_, ?_, by norm_num⟩
  · have hbeq : ((21/20 : ℚ) == 1) = false := beq_eq_false_iff_ne.mpr (by norm_num)
    norm_num [NumericPrediction.percentage_correctly_classified,
      NumericPrediction.toPrediction, Prediction.percentage_correctly_classified,
      npMeanBool, npEqArr, hbeq]
  · have hm : NumericPrediction.matches ⟨[1], [21/20], rfl⟩ (1/10) = [true] := by
      norm_num [NumericPrediction.matches, npSub, abs_le]
    rw [hm]
    norm_num [npMeanBool]

/-- C1: `confusion_matrix(as_dataframe=False)` is the 2x2 count matrix with
row 0 the actual-negative counts split by predicted class and row 1 the
actual-positive counts, where positivity means equality with
`value_positive`; the dataframe form exposes the same counts with rows and
columns labelled Negative/Positive. -/
theorem confusion_matrix_spec {α : Type} [DecidableEq α] (p : BinaryPrediction α) :
    p.confusion_matrix =
      [[pairCount p (fun f r => f != p.value_positive && r != p.value_positive),
        pairCount p (fun f r => f == p.value_positive && r != p.value_positive)],
       [pairCount p (fun f r => f != p.value_positive && r == p.value_positive),
        pairCount p (fun f r => f == p.value_positive && r == p.value_positive)]] ∧
    p.confusion_matrix_df.values = p.confusion_matrix ∧
    p.confusion_matrix_df.row_labels = ["Negative", "Positive"] ∧
    p.confusion_matrix_df.col_labels = ["Negative", "Positive"] := by
  refine ⟨?_, rfl, rfl, rfl⟩
  simp only [BinaryPrediction.confusion_matrix, npAnd, npEqScalar, npNeScalar, pairCount]
  rw [npSum_zipWith_map, npSum_zipWith_map, npSum_zipWith_map, npSum_zipWith_map]

/-- C2: `sensitivity` and `specificity` divide the caught-class count by the
count of the union of the predicted and the actual class (not by the actual
class count); on the spec example fitted=[1,1,0,0], real=[1,0,0,0],
value_positive=1 the sensitivity is 1/2. -/
theorem sensitivity_specificity_union {α : Type} [DecidableEq α] (p : BinaryPrediction α) :
    (p.sensitivity =
      (pairCount p (fun f r => f == p.value_positive && r == p.value_positive) : ℚ) /
      (pairCount p (fun f r => f == p.value_positive || r == p.value_positive) : ℚ)) ∧
    (p.specificity =
      (pairCount p (fun f r => f != p.value_positive && r != p.value_positive) : ℚ) /
      (pairCount p (fun f r => f != p.value_positive || r != p.value_positive) : ℚ)) ∧
    BinaryPrediction.sensitivity ⟨([1, 1, 0, 0] : List ℤ), [1, 0, 0, 0], 1, rfl⟩ = 1/2 := by
  refine ⟨?_, ?_, ?_⟩
  · simp only [BinaryPrediction.sensitivity, npAnd, npOr, npEqScalar, pairCount]
    rw [npSum_zipWith_map, npSum_zipWith_map]
  · simp only [BinaryPrediction.specificity, npAnd, npOr, npNeScalar, pairCount]
    rw [npSum_zipWith_map, npSum_zipWith_map]
  · have hnum : npSum (npAnd (npEqScalar ([1, 1, 0, 0] : List ℤ) 1)
        (npEqScalar ([1, 0, 0, 0] : List ℤ) 1)) = 1 := by decide
    have hden : npSum (npOr (npEqScalar ([1, 1, 0, 0] : List ℤ) 1)
        (npEqScalar ([1, 0, 0, 0] : List ℤ) 1)) = 2 := by decide
    show (npSum (npAnd (npEqScalar ([1, 1, 0, 0] : List ℤ) 1)
        (npEqScalar ([1, 0, 0, 0] : List ℤ) 1)) : ℚ) /
      (npSum (npOr (npEqScalar ([1, 1, 0, 0] : List ℤ) 1)
        (npEqScalar ([1, 0, 0, 0] : List ℤ) 1)) : ℚ) = 1/2
    rw [hnum, hden]
    norm_num

/-- C10: the four entries of the confusion matrix sum to N, the common
length of the two sequences, since the predicted and actual partitions are
exact complements over the same indices. -/
theorem confusion_matrix_total {α : Type} [DecidableEq α] (p : BinaryPrediction α) :
    (p.confusion_matrix.map List.sum).sum = p.fitted_values.length := by
  simp only [BinaryPrediction.confusion_matrix, npAnd, npEqScalar, npNeScalar]
  rw [npSum_zipWith_map, npSum_zipWith_map, npSum_zipWith_map, npSum_zipWith_map]
  simp only [List.map_cons, List.map_nil, List.sum_cons, List.sum_nil, bne]
  have hpart := countP_four_partition (p.fitted_values.zip p.real_values)
    (fun x => x.1 == p.value_positive) (fun x => x.2 == p.value_positive)
  have hlen : (p.fitted_values.zip p.real_values).length = p.fitted_values.length := by
    simp [List.length_zip, p.len_eq]
  simp only at hpart
  omega

/-- C7: `value_negative` is the first element of `real_values` different
from `value_positive` (in sequence order); when no element differs,
indexing the empty filtered array raises `IndexError` (modelled as `none`)
rather than returning a value. -/
theorem value_negative_first {α : Type} [DecidableEq α] (p : BinaryPrediction α) :
    (∀ x : α, p.value_negative = some x ↔
      ∃ pre suf, p.real_values = pre ++ x :: suf ∧
        (∀ y ∈ pre, y = p.value_positive) ∧ x ≠ p.value_positive) ∧
    (p.value_negative = none ↔ ∀ y ∈ p.real_values, y = p.value_positive) := by
  constructor
  · intro x
    rw [BinaryPrediction.value_negative, head?_filter_eq_some_iff]
    constructor
    · rintro ⟨pre, suf, hdec, hpre, hx⟩
      refine ⟨pre, suf, hdec, ?_, ?_⟩
      · intro y hy
        simpa using hpre y hy
      · simpa using hx
    · rintro ⟨pre, suf, hdec, hpre, hx⟩
      refine ⟨pre, suf, hdec, ?_, ?_⟩
      · intro y hy
        simpa using hpre y hy
      · simpa using hx
  · rw [BinaryPrediction.value_negative, head?_filter_eq_none_iff]
    constructor
    · intro h y hy
      simpa using h y hy
    · intro h y hy
      simpa using h y hy

/-- C7 witness: for real_values=[1,0,2] with value_positive=1 the accessor
returns 0, the first element different from 1. -/
theorem value_negative_first_witness :
    BinaryPrediction.value_negative ⟨([9, 9, 9] : List ℤ), [1, 0, 2], 1, rfl⟩ = some 0 :=
  ((value_negative_first ⟨([9, 9, 9] : List ℤ), [1, 0, 2], 1, rfl⟩).1 0).mpr
    ⟨[1], [2], rfl, by decide, by decide⟩

end Predictions
